import Mathlib

/-!
Verification of two source files of the repository slice:

* `x-pack/legacy/plugins/reporting/export_types/csv/server/execute_job.ts` —
  the CSV export job executor (`executeJobFactory` / `executeJob`);
* the alert-list Redux selectors module (`uiQueryParams`, `searchBarQuery`,
  `encodedSearchBarDateRange`, `searchBarDateRange`, `searchBarFilters`,
  `apiQueryParams`, `hasSelectedAlert`, `isOnAlertPage`).

External collaborators (the crypto service, the generate-csv module, the
ui-settings client, the rison encoder or decoder, the Node querystring
builtin) are modelled as abstract parameters; the orchestration code under
verification is translated statement by statement from the source.
-/

namespace AlertList

/-- The browser location slice of the alert-list state.  In the source the
state type `AlertListState` lives in a types module outside this excerpt;
its shape here is reconstructed from the fields the selectors read:
`location.pathname` and `location.search`. -/
structure Location where
  pathname : String
  search : String
deriving DecidableEq, Repr

/-- The search-bar slice of the state; the selectors read only `patterns`. -/
structure SearchBarState where
  patterns : List String
deriving DecidableEq, Repr

/-- The alert-list state.  Fields other than `location` carry opaque data
(the selectors under verification never read them); `location` is optional,
matching the `state.location ? ... : ...` and `if (location)` guards in the
source. -/
structure AlertListState where
  alerts : List String
  alertDetails : Option String
  pageIndex : Nat
  pageSize : Nat
  total : Nat
  location : Option Location
  searchBar : SearchBarState
deriving DecidableEq, Repr

/-- Model of the Node `querystring.parse` builtin: split the raw query
string on `&`, split each part at its first `=` (a part with no `=` maps to
the empty value, further `=` signs stay in the value).  Percent-escape
decoding of the builtin is not modelled; the values are carried verbatim.
The result is the ordered list of key-value pairs; a key that repeats in
the string yields several pairs, which is how the builtin represents the
array case. -/
def qsPairs (s : String) : List (String × String) :=
  (s.splitOn "&").filterMap fun part =>
    if part = "" then none
    else
      match part.splitOn "=" with
      | [] => none
      | k :: rest => some (k, String.intercalate "=" rest)

/-- All values the parsed query string carries for `key`, in order. -/
def qsValues (s : String) (key : String) : List String :=
  ((qsPairs s).filter (fun p => p.1 == key)).map Prod.snd

/-- The value `uiQueryParams` keeps for `key`: the single value when the
builtin returned a string, the last element when it returned an array
(`value[value.length - 1]` in the source), `none` when the key is absent. -/
def lastValueFor (query : List (String × String)) (key : String) : Option String :=
  ((query.filter (fun p => p.1 == key)).map Prod.snd).getLast?

/-- The keys array of `uiQueryParams` (`Array<keyof AlertingIndexUIQueryParams>`
in the source). -/
def alertingIndexUIQueryParamKeys : List String :=
  ["page_size", "page_index", "selected_alert", "query", "date_range", "filters"]

/-- The `for (const key of keys)` loop body of `uiQueryParams`: starting from
the empty object `data`, assign `data[key]` for every key the query string
carries.  The object is modelled as an insertion-ordered association list;
the loop visits each key of the (duplicate-free) key list once, so every key
occurs at most once in the result. -/
def buildUIQueryParams (query : List (String × String)) :
    List String → List (String × String) → List (String × String)
  | [], data => data
  | key :: keys, data =>
    match lastValueFor query key with
    | none => buildUIQueryParams query keys data
    | some v => buildUIQueryParams query keys (data ++ [(key, v)])

/-- Selector `uiQueryParams`: parse `location.search` minus its leading `?`
(`location.search.slice(1)`) and keep the six recognised keys.  With an
undefined location the empty object is returned. -/
def uiQueryParams (state : AlertListState) : List (String × String) :=
  match state.location with
  | none => []
  | some location =>
    buildUIQueryParams (qsPairs (location.search.drop 1))
      alertingIndexUIQueryParamKeys []

/-- Property access `data[key]` on the modelled object: the value of the
first (hence, keys being unique, the only) entry with that key. -/
def lookupParam {β : Type} (data : List (String × β)) (key : String) : Option β :=
  (data.find? (fun p => p.1 == key)).map Prod.snd

/-- The `Query` view-model type of the search bar (`src/plugins/data/public`);
the selectors build it either by rison-decoding a string or as the literal
default, so only those two shapes matter here. -/
structure Query where
  query : String
  language : String
deriving DecidableEq, Repr

/-- The `TimeRange` view-model type of the search bar. -/
structure TimeRange where
  «from» : String
  «to» : String
deriving DecidableEq, Repr

/-- The literal default date range of `encodedSearchBarDateRange`. -/
def defaultDateRange : TimeRange := { «from» := "now-24h", «to» := "now" }

/-- Selector `isOnAlertPage`. -/
def isOnAlertPage (state : AlertListState) : Bool :=
  match state.location with
  | some location => location.pathname == "/alerts"
  | none => false

/-- Selector `searchBarQuery`; `decodeQuery` stands for the external
rison-node `decode` at type `Query`. -/
def searchBarQuery (decodeQuery : String → Query) (state : AlertListState) : Query :=
  match lookupParam (uiQueryParams state) "query" with
  | some q => decodeQuery q
  | none => { query := "", language := "kuery" }

/-- Selector `encodedSearchBarDateRange`; `encode` stands for the external
rison-node `encode`. -/
def encodedSearchBarDateRange (encode : TimeRange → String)
    (state : AlertListState) : String :=
  match lookupParam (uiQueryParams state) "date_range" with
  | none => encode defaultDateRange
  | some dateRange => dateRange

/-- Selector `searchBarDateRange`; `decodeRange` stands for the external
rison-node `decode` at type `TimeRange`. -/
def searchBarDateRange (encode : TimeRange → String)
    (decodeRange : String → TimeRange) (state : AlertListState) : TimeRange :=
  decodeRange (encodedSearchBarDateRange encode state)

/-- Selector `searchBarFilters`; `decodeFilters` stands for the external
rison-node `decode` at type `Filter[]`, with `φ` the opaque `Filter` type. -/
def searchBarFilters {φ : Type} (decodeFilters : String → List φ)
    (state : AlertListState) : List φ :=
  match lookupParam (uiQueryParams state) "filters" with
  | some filters => decodeFilters filters
  | none => []

/-- Selector `apiQueryParams`: the object literal
`page_size, page_index, query, date_range, filters`, where `date_range` is
always the (defaulted) encoded date range and the other four are copied from
`uiQueryParams` and may be undefined.  Modelled as the ordered list of the
object literal entries, an undefined value being `none`. -/
def apiQueryParams (encode : TimeRange → String)
    (state : AlertListState) : List (String × Option String) :=
  let u := uiQueryParams state
  [("page_size", lookupParam u "page_size"),
   ("page_index", lookupParam u "page_index"),
   ("query", lookupParam u "query"),
   ("date_range", some (encodedSearchBarDateRange encode state)),
   ("filters", lookupParam u "filters")]

/-- Selector `hasSelectedAlert`. -/
def hasSelectedAlert (state : AlertListState) : Bool :=
  (lookupParam (uiQueryParams state) "selected_alert").isSome

/-- Selector `alertListData`. -/
def alertListData (state : AlertListState) : List String := state.alerts

/-- Selector `selectedAlertDetailsData`. -/
def selectedAlertDetailsData (state : AlertListState) : Option String :=
  state.alertDetails

/-- Selector `searchBarIndexPatterns`. -/
def searchBarIndexPatterns (state : AlertListState) : List String :=
  state.searchBar.patterns

/-- Appending an entry with a different key does not change a lookup. -/
theorem lookupParam_append_ne {β : Type} (data : List (String × β))
    (key k : String) (v : β) (hne : k ≠ key) :
    lookupParam (data ++ [(key, v)]) k = lookupParam data k := by
  unfold lookupParam
  rw [List.find?_append]
  cases hfd : data.find? (fun p => p.1 == k) with
  | some p => simp
  | none =>
    simp only [Option.or_none, Option.none_or]
    have hb : (key == k) = false := beq_eq_false_iff_ne.mpr (Ne.symm hne)
    simp [List.find?, hb]

/-- Appending an entry with a key the data does not yet hold makes a lookup
of that key find the appended value. -/
theorem lookupParam_append_self {β : Type} (data : List (String × β))
    (key : String) (v : β) (hnone : lookupParam data key = none) :
    lookupParam (data ++ [(key, v)]) key = some v := by
  unfold lookupParam at hnone ⊢
  rw [List.find?_append]
  cases hfd : data.find? (fun p => p.1 == key) with
  | some p => simp [hfd] at hnone
  | none => simp [List.find?]

/-- Keys the loop does not visit are left exactly as the accumulator holds
them. -/
theorem buildUIQueryParams_lookup_notin (query : List (String × String))
    (keys : List String) (data : List (String × String)) (k : String)
    (hk : k ∉ keys) :
    lookupParam (buildUIQueryParams query keys data) k = lookupParam data k := by
  induction keys generalizing data with
  | nil => rfl
  | cons key keys ih =>
    have hne : k ≠ key := fun h => hk (h ▸ List.mem_cons_self key keys)
    have hk' : k ∉ keys := fun h => hk (List.mem_cons_of_mem key h)
    unfold buildUIQueryParams
    cases hl : lastValueFor query key with
    | none => exact ih data hk'
    | some v => rw [ih _ hk', lookupParam_append_ne data key k v hne]

/-- A key the loop visits (each key at most once, and not yet present in the
accumulator) ends up bound to the last query-string value for it, and stays
absent when the query string does not carry it. -/
theorem buildUIQueryParams_lookup_mem (query : List (String × String)) :
    ∀ (keys : List String) (data : List (String × String)) (k : String),
      keys.Nodup → k ∈ keys → lookupParam data k = none →
      lookupParam (buildUIQueryParams query keys data) k = lastValueFor query k := by
  intro keys
  induction keys with
  | nil =>
    intro data k _ hk _
    exact absurd hk (List.not_mem_nil k)
  | cons key keys ih =>
    intro data k hnd hk hnone
    have hkeynot : key ∉ keys := (List.nodup_cons.mp hnd).1
    have hnd' : keys.Nodup := (List.nodup_cons.mp hnd).2
    rcases List.mem_cons.mp hk with heq | hmem
    · subst heq
      unfold buildUIQueryParams
      cases hl : lastValueFor query k with
      | none => rw [buildUIQueryParams_lookup_notin query keys data k hkeynot, hnone]
      | some v =>
        rw [buildUIQueryParams_lookup_notin query keys _ k hkeynot,
          lookupParam_append_self data k v hnone]
    · have hne : k ≠ key := fun h => hkeynot (h ▸ hmem)
      unfold buildUIQueryParams
      cases hl : lastValueFor query key with
      | none => exact ih data k hnd' hmem hnone
      | some v =>
        exact ih _ k hnd' hmem
          ((lookupParam_append_ne data key k v hne).trans hnone)

/-- Every entry the loop produces comes from the accumulator or carries a
visited key. -/
theorem buildUIQueryParams_mem (query : List (String × String))
    (keys : List String) (data : List (String × String))
    (p : String × String) (hp : p ∈ buildUIQueryParams query keys data) :
    p ∈ data ∨ p.1 ∈ keys := by
  induction keys generalizing data with
  | nil => exact Or.inl hp
  | cons key keys ih =>
    unfold buildUIQueryParams at hp
    cases hl : lastValueFor query key with
    | none =>
      rw [hl] at hp
      rcases ih data hp with h | h
      · exact Or.inl h
      · exact Or.inr (List.mem_cons_of_mem key h)
    | some v =>
      rw [hl] at hp
      rcases ih _ hp with h | h
      · rcases List.mem_append.mp h with h' | h'
        · exact Or.inl h'
        · rcases List.mem_singleton.mp h' with rfl
          exact Or.inr (List.mem_cons_self key keys)
      · exact Or.inr (List.mem_cons_of_mem key h)

/-- C8: `isOnAlertPage` is true exactly when the state has a defined
location whose pathname is `/alerts` (so in particular it is false, without
failing, when the location is undefined). -/
theorem isOnAlertPage_iff (state : AlertListState) :
    isOnAlertPage state = true ↔
      ∃ location : Location,
        state.location = some location ∧ location.pathname = "/alerts" := by
  cases h : state.location with
  | none => simp [isOnAlertPage, h]
  | some location => simp [isOnAlertPage, h]

/-- C4: the alert-list selectors are pure projections of the location slice
of the state — two states with equal locations yield equal results for
`uiQueryParams` and every selector derived from it, whatever their other
fields hold. -/
theorem selectors_project_location {φ : Type}
    (decodeQuery : String → Query) (encode : TimeRange → String)
    (decodeRange : String → TimeRange) (decodeFilters : String → List φ)
    (s1 s2 : AlertListState) (h : s1.location = s2.location) :
    uiQueryParams s1 = uiQueryParams s2 ∧
    searchBarQuery decodeQuery s1 = searchBarQuery decodeQuery s2 ∧
    encodedSearchBarDateRange encode s1 = encodedSearchBarDateRange encode s2 ∧
    searchBarDateRange encode decodeRange s1 = searchBarDateRange encode decodeRange s2 ∧
    searchBarFilters decodeFilters s1 = searchBarFilters decodeFilters s2 ∧
    apiQueryParams encode s1 = apiQueryParams encode s2 ∧
    hasSelectedAlert s1 = hasSelectedAlert s2 := by
  have hu : uiQueryParams s1 = uiQueryParams s2 := by
    unfold uiQueryParams
    rw [h]
  have he : encodedSearchBarDateRange encode s1 = encodedSearchBarDateRange encode s2 := by
    unfold encodedSearchBarDateRange
    rw [hu]
  refine ⟨hu, ?_, he, ?_, ?_, ?_, ?_⟩
  · unfold searchBarQuery
    rw [hu]
  · unfold searchBarDateRange
    rw [he]
  · unfold searchBarFilters
    rw [hu]
  · unfold apiQueryParams
    rw [hu, he]
  · unfold hasSelectedAlert
    rw [hu]

/-- The location shared by the two witness states. -/
def wLoc : Location :=
  { pathname := "/alerts",
    search := "?query=(language:kuery,query:q)&page_index=1&selected_alert=42" }

/-- Witness state: same location as `wState2`, different everywhere else. -/
def wState1 : AlertListState :=
  { alerts := ["a1"], alertDetails := none, pageIndex := 0, pageSize := 10,
    total := 5, location := some wLoc, searchBar := { patterns := ["p"] } }

/-- Witness state: same location as `wState1`, different everywhere else. -/
def wState2 : AlertListState :=
  { alerts := [], alertDetails := some "d", pageIndex := 3, pageSize := 50,
    total := 9, location := some wLoc, searchBar := { patterns := [] } }

/-- A concrete stand-in for the rison decoder at type `Query`. -/
def wDecodeQuery : String → Query := fun s => { query := s, language := "kuery" }

/-- A concrete stand-in for the rison encoder. -/
def wEncode : TimeRange → String := fun t => t.«from» ++ ".." ++ t.«to»

/-- A concrete stand-in for the rison decoder at type `TimeRange`. -/
def wDecodeRange : String → TimeRange := fun s => { «from» := s, «to» := s }

/-- A concrete stand-in for the rison decoder at type `Filter[]`. -/
def wDecodeFilters : String → List String := fun s => [s]

/-- Witness for C4 at two concrete states that agree on the location but on
no other field. -/
theorem selectors_project_location_witness :
    wState1.location = wState2.location ∧
    (uiQueryParams wState1 = uiQueryParams wState2 ∧
     searchBarQuery wDecodeQuery wState1 = searchBarQuery wDecodeQuery wState2 ∧
     encodedSearchBarDateRange wEncode wState1 = encodedSearchBarDateRange wEncode wState2 ∧
     searchBarDateRange wEncode wDecodeRange wState1 = searchBarDateRange wEncode wDecodeRange wState2 ∧
     searchBarFilters wDecodeFilters wState1 = searchBarFilters wDecodeFilters wState2 ∧
     apiQueryParams wEncode wState1 = apiQueryParams wEncode wState2 ∧
     hasSelectedAlert wState1 = hasSelectedAlert wState2) :=
  ⟨rfl, selectors_project_location wDecodeQuery wEncode wDecodeRange
    wDecodeFilters wState1 wState2 rfl⟩

/-- C9: with a defined location, `uiQueryParams` binds only the six
recognised keys; each recognised key is bound to the last value the query
string carries for it and is absent when the query string does not carry
it. -/
theorem uiQueryParams_characterization (state : AlertListState)
    (location : Location) (h : state.location = some location) :
    (∀ p ∈ uiQueryParams state, p.1 ∈ alertingIndexUIQueryParamKeys) ∧
    (∀ key ∈ alertingIndexUIQueryParamKeys,
      lookupParam (uiQueryParams state) key =
        (qsValues (location.search.drop 1) key).getLast?) := by
  have hu : uiQueryParams state =
      buildUIQueryParams (qsPairs (location.search.drop 1))
        alertingIndexUIQueryParamKeys [] := by
    unfold uiQueryParams
    rw [h]
  constructor
  · intro p hp
    rw [hu] at hp
    rcases buildUIQueryParams_mem _ _ _ p hp with h1 | h1
    · exact absurd h1 (List.not_mem_nil p)
    · exact h1
  · intro key hkey
    rw [hu]
    rw [buildUIQueryParams_lookup_mem _ alertingIndexUIQueryParamKeys []
      key (by decide) hkey rfl]
    rfl

/-- The state used by the C9 witness: its query string repeats `page_size`,
carries an unrecognised key `foo`, and omits `date_range`. -/
def wState3 : AlertListState :=
  { alerts := [], alertDetails := none, pageIndex := 0, pageSize := 10,
    total := 0,
    location := some
      { pathname := "/alerts",
        search := "?page_size=1&page_size=2&foo=3&query=abc" },
    searchBar := { patterns := [] } }

/-- Witness for C9 at a concrete query string with a repeated key, a foreign
key and a missing key. -/
theorem uiQueryParams_characterization_witness :
    wState3.location = some
      { pathname := "/alerts",
        search := "?page_size=1&page_size=2&foo=3&query=abc" } ∧
    ((∀ p ∈ uiQueryParams wState3, p.1 ∈ alertingIndexUIQueryParamKeys) ∧
     (∀ key ∈ alertingIndexUIQueryParamKeys,
       lookupParam (uiQueryParams wState3) key =
         (qsValues ((String.drop "?page_size=1&page_size=2&foo=3&query=abc" 1)) key).getLast?)) :=
  ⟨rfl, uiQueryParams_characterization wState3
    { pathname := "/alerts",
      search := "?page_size=1&page_size=2&foo=3&query=abc" } rfl⟩

/-- C10: `apiQueryParams` always carries a defined `date_range` — the
query-string value when the URL has one and the rison encoding of the
default range otherwise — and never carries a `selected_alert` entry. -/
theorem apiQueryParams_dates_and_no_selection (encode : TimeRange → String)
    (state : AlertListState) :
    lookupParam (apiQueryParams encode state) "date_range" =
      some (some ((lookupParam (uiQueryParams state) "date_range").getD
        (encode defaultDateRange))) ∧
    (apiQueryParams encode state).filter (fun p => p.1 == "selected_alert") = [] := by
  have h1 : lookupParam (apiQueryParams encode state) "date_range" =
      some (some (encodedSearchBarDateRange encode state)) := rfl
  refine ⟨?_, rfl⟩
  rw [h1]
  unfold encodedSearchBarDateRange
  cases h : lookupParam (uiQueryParams state) "date_range" <;> simp [h]

end AlertList

namespace Reporting

/-- A log line emitted through the logger (`logger.error(err)` /
`logger.warn(...)`); errors are logged by their string form. -/
inductive LogEntry where
  | error : String → LogEntry
  | warn : String → LogEntry
deriving DecidableEq, Repr

/-- The CSV job payload (`JobDocPayloadDiscoverCsv`), reconstructed from the
destructuring in `executeJob`.  Opaque payload pieces (`searchRequest`,
`indexPatternSavedObject`) are carried as strings; `headers` is `some` when
the stored value is a string (`typeof headers === "string"`), otherwise
`none`; `basePath` is `none` when the job carries no base path and `some ""`
when it carries an empty one, both of which are falsy in the source. -/
structure JobDocPayloadDiscoverCsv where
  searchRequest : String
  fields : List String
  indexPatternSavedObject : String
  metaFields : List String
  conflictedTypesFields : List String
  headers : Option String
  basePath : Option String
deriving DecidableEq, Repr

/-- The synthetic request `executeJob` assembles via `KibanaRequest.from`:
the decrypted headers, the base path (`basePath || serverBasePath`) and the
constant path. -/
structure FakeRequest where
  headers : String
  basePath : String
  path : String
deriving DecidableEq, Repr

/-- The settings object handed to `generateCsv`: the three ui-settings reads
spread together with the three reporting config reads.  Setting values are
carried verbatim as strings; the two config values with fixed types keep
them. -/
structure CsvSettings where
  separator : String
  quoteValues : String
  timezone : String
  checkForFormulas : Bool
  maxSizeBytes : Nat
  scroll : String
deriving DecidableEq, Repr

/-- The argument object of the single `generateCsv` call.  `callEndpoint` in
the source is a closure over the elasticsearch client scoped to the fake
request; it is modelled by that scope (`callEndpointScope`).  `α` is the
opaque type of the cancellation token, which `executeJob` never examines. -/
structure GenerateCsvArgs (α : Type) where
  searchRequest : String
  fields : List String
  metaFields : List String
  conflictedTypesFields : List String
  callEndpointScope : FakeRequest
  cancellationToken : α
  formatsMap : String
  settings : CsvSettings
deriving DecidableEq, Repr

/-- What the external `generateCsv` collaborator resolves to. -/
structure GenerateCsvResult where
  content : String
  maxSizeReached : Bool
  size : Nat
  csvContainsFormulas : Bool
deriving DecidableEq, Repr

/-- The object a successful `executeJob` resolves to. -/
structure JobResult where
  content_type : String
  content : String
  max_size_reached : Bool
  size : Nat
  csv_contains_formulas : Bool
deriving DecidableEq, Repr

/-- The external collaborators `executeJob` closes over, modelled as pure
functions: the crypto service (`crypto.decrypt`, which may reject — its
rejection value is carried in string form), the reporting config reads
captured by the factory and the job body, the ui-settings client
(`client.get`), the field-format map construction
(`fieldFormatMapFactory(indexPatternSavedObject, fieldFormats)`, an opaque
value built from the saved object and the field-format service), and the
generate-csv module. -/
structure ReportingEnv (α : Type) where
  decrypt : String → Except String String
  serverBasePath : String
  useByteOrderMarkEncoding : Bool
  checkForFormulas : Bool
  maxSizeBytes : Nat
  scroll : String
  fieldFormats : String
  formatsMapOf : String → String → String
  uiGet : String → String
  generateCsv : GenerateCsvArgs α → GenerateCsvResult

/-- Modelled from the spec: the `CSV_BOM_CHARS` constant imported from
`common/constants`, whose definition is outside this excerpt — the Unicode
byte-order mark prepended when `csv.useByteOrderMarkEncoding` is set. -/
def CSV_BOM_CHARS : String := "\uFEFF"

/-- The message of the error thrown when `typeof headers !== "string"`
(i18n id `...missingJobHeadersErrorMessage`, default message with no
placeholder). -/
def missingJobHeadersErrorMessage : String := "Job headers are missing"

/-- The user-facing decryption failure message (i18n id
`...failedToDecryptReportJobDataErrorMessage`) with its two placeholders
substituted: the literal config key name and `err.toString()`. -/
def failedToDecryptErrorMessage (err : String) : String :=
  "Failed to decrypt report job data. Please ensure that xpack.reporting.encryptionKey is set and re-generate this report. " ++ err

/-- The warning logged when the `dateFormat:tz` advanced setting is
`Browser` (i18n id `...dateFormateSetting`), placeholders substituted. -/
def dateFormatSettingWarning : String :=
  "Kibana Advanced Setting \"dateFormat:tz\" is set to \"Browser\". Dates will be formatted as UTC to avoid ambiguity."

/-- `err.toString()` of the `Error` object thrown for missing headers. -/
def missingJobHeadersErrorString : String :=
  "Error: " ++ missingJobHeadersErrorMessage

/-- The local `decryptHeaders` function of `executeJob`: inside a single
try/catch, throw when the stored headers are not a string, otherwise decrypt
them; on any caught error, log it (`logger.error(err)`) and throw the
user-facing message built from `err.toString()`.  Returns the outcome
together with the log lines emitted. -/
def decryptHeaders {α : Type} (env : ReportingEnv α) (headers : Option String) :
    Except String String × List LogEntry :=
  match headers with
  | none =>
    (Except.error (failedToDecryptErrorMessage missingJobHeadersErrorString),
     [LogEntry.error missingJobHeadersErrorString])
  | some h =>
    match env.decrypt h with
    | Except.ok decrypted => (Except.ok decrypted, [])
    | Except.error err =>
      (Except.error (failedToDecryptErrorMessage err), [LogEntry.error err])

/-- The base path of the fake request: `basePath || serverBasePath`, where
an absent or empty job base path is falsy. -/
def basePathOf {α : Type} (job : JobDocPayloadDiscoverCsv)
    (env : ReportingEnv α) : String :=
  match job.basePath with
  | some b => if b = "" then env.serverBasePath else b
  | none => env.serverBasePath

/-- The local `getUiSettings` function: read the three advanced settings
`csv:separator`, `csv:quoteValues` and `dateFormat:tz` (a `Promise.all` in
the source), warn when the timezone setting is `Browser`, and return the
three values.  The result pairs the warning lines with the values. -/
def getUiSettings {α : Type} (env : ReportingEnv α) :
    (String × String × String) × List LogEntry :=
  let separator := env.uiGet "csv:separator"
  let quoteValues := env.uiGet "csv:quoteValues"
  let timezone := env.uiGet "dateFormat:tz"
  ((separator, quoteValues, timezone),
   if timezone = "Browser" then [LogEntry.warn dateFormatSettingWarning] else [])

/-- The trace of one `executeJob` invocation: the promise outcome (resolved
result or thrown error message), the log lines emitted, the fake requests
built, the `generateCsv` calls made, and the job payload as it stands after
the run (the source only destructures the payload and never writes to it,
so the embedding threads it through unchanged). -/
structure ExecuteJobTrace (α : Type) where
  result : Except String JobResult
  logs : List LogEntry
  fakeRequests : List FakeRequest
  csvCalls : List (GenerateCsvArgs α)
  jobAfter : JobDocPayloadDiscoverCsv

/-- The `executeJob` worker returned by `executeJobFactory`, translated
statement by statement: decrypt the stored headers (throwing the user-facing
error on failure), build the fake request from the decrypted headers and the
base path, build the formats map from the saved object, read the ui
settings, then call `generateCsv` once with the job payload pieces, the
scoped call endpoint, the cancellation token, the formats map and the
settings, and resolve with the BOM-prefixed content and the pass-through
fields.  `jobId` only names the per-job logger clone in the source. -/
def executeJob {α : Type} (env : ReportingEnv α) (jobId : String)
    (job : JobDocPayloadDiscoverCsv) (cancellationToken : α) :
    ExecuteJobTrace α :=
  match decryptHeaders env job.headers with
  | (Except.error e, logs) =>
    { result := Except.error e, logs := logs, fakeRequests := [],
      csvCalls := [], jobAfter := job }
  | (Except.ok decrypted, logs) =>
    let fakeRequest : FakeRequest :=
      { headers := decrypted, basePath := basePathOf job env, path := "/" }
    let formatsMap := env.formatsMapOf job.indexPatternSavedObject env.fieldFormats
    let (ui, warnings) := getUiSettings env
    let bom := if env.useByteOrderMarkEncoding then CSV_BOM_CHARS else ""
    let args : GenerateCsvArgs α :=
      { searchRequest := job.searchRequest
        fields := job.fields
        metaFields := job.metaFields
        conflictedTypesFields := job.conflictedTypesFields
        callEndpointScope := fakeRequest
        cancellationToken := cancellationToken
        formatsMap := formatsMap
        settings :=
          { separator := ui.1
            quoteValues := ui.2.1
            timezone := ui.2.2
            checkForFormulas := env.checkForFormulas
            maxSizeBytes := env.maxSizeBytes
            scroll := env.scroll } }
    let r := env.generateCsv args
    { result := Except.ok
        { content_type := "text/csv"
          content := bom ++ r.content
          max_size_reached := r.maxSizeReached
          size := r.size
          csv_contains_formulas := r.csvContainsFormulas }
      logs := logs ++ warnings
      fakeRequests := [fakeRequest]
      csvCalls := [args]
      jobAfter := job }

/-- The error the catch block of `decryptHeaders` receives, in string form:
the missing-headers `Error` when the stored headers are not a string, the
rejection of `crypto.decrypt` otherwise, and `none` when decryption
succeeds. -/
def underlyingDecryptError {α : Type} (env : ReportingEnv α)
    (headers : Option String) : Option String :=
  match headers with
  | none => some missingJobHeadersErrorString
  | some h =>
    match env.decrypt h with
    | Except.ok _ => none
    | Except.error err => some err

/-- A concrete environment used by the witness theorems. -/
def wEnv : ReportingEnv Unit :=
  { decrypt := fun s => if s = "enc" then Except.ok "authorization:basic" else Except.error "Error: bad key"
    serverBasePath := "/kbn"
    useByteOrderMarkEncoding := true
    checkForFormulas := true
    maxSizeBytes := 100
    scroll := "30s"
    fieldFormats := "ff"
    formatsMapOf := fun ips ff => ips ++ "|" ++ ff
    uiGet := fun k => if k = "dateFormat:tz" then "UTC" else k
    generateCsv := fun a =>
      { content := a.searchRequest, maxSizeReached := false, size := 3,
        csvContainsFormulas := false } }

/-- A concrete job whose stored headers are not a string. -/
def wJobBad : JobDocPayloadDiscoverCsv :=
  { searchRequest := "sr", fields := ["a"], indexPatternSavedObject := "ip",
    metaFields := ["_id"], conflictedTypesFields := [], headers := none,
    basePath := none }

/-- A concrete job whose stored headers decrypt successfully in `wEnv`. -/
def wJobGood : JobDocPayloadDiscoverCsv :=
  { searchRequest := "sr", fields := ["a"], indexPatternSavedObject := "ip",
    metaFields := ["_id"], conflictedTypesFields := [], headers := some "enc",
    basePath := some "/s/space1" }

/-- C1: whenever the stored headers cannot be decrypted — including the case
where `job.headers` is not a string — `executeJob` logs the underlying error
and throws the user-facing decryption failure message; it makes no
`generateCsv` call and resolves with no result object. -/
theorem executeJob_decrypt_failure {α : Type} (env : ReportingEnv α)
    (jobId : String) (job : JobDocPayloadDiscoverCsv) (cancellationToken : α)
    (e : String) (h : underlyingDecryptError env job.headers = some e) :
    executeJob env jobId job cancellationToken =
      { result := Except.error (failedToDecryptErrorMessage e),
        logs := [LogEntry.error e], fakeRequests := [], csvCalls := [],
        jobAfter := job } := by
  cases hh : job.headers with
  | none =>
    simp [underlyingDecryptError, hh] at h
    subst h
    simp [executeJob, decryptHeaders, hh]
  | some s =>
    cases hd : env.decrypt s with
    | ok d => simp [underlyingDecryptError, hh, hd] at h
    | error err =>
      simp [underlyingDecryptError, hh, hd] at h
      subst h
      simp [executeJob, decryptHeaders, hh, hd]

/-- Witness for C1: the missing-headers job fails as described. -/
theorem executeJob_decrypt_failure_witness :
    underlyingDecryptError wEnv wJobBad.headers = some missingJobHeadersErrorString ∧
    executeJob wEnv "job-1" wJobBad () =
      { result := Except.error (failedToDecryptErrorMessage missingJobHeadersErrorString),
        logs := [LogEntry.error missingJobHeadersErrorString], fakeRequests := [],
        csvCalls := [], jobAfter := wJobBad } :=
  ⟨rfl, executeJob_decrypt_failure wEnv "job-1" wJobBad ()
    missingJobHeadersErrorString rfl⟩

/-- C2: on the success path `executeJob` decrypts the headers, builds the
fake request from them, and calls `generateCsv` exactly once with the job
payload pieces, the formats map and the ui settings; the resolved content is
the BOM prefix (present exactly when `csv.useByteOrderMarkEncoding` is set)
followed by the content `generateCsv` returned, and `maxSizeReached`, `size`
and `csvContainsFormulas` pass through unchanged. -/
theorem executeJob_success {α : Type} (env : ReportingEnv α) (jobId : String)
    (job : JobDocPayloadDiscoverCsv) (cancellationToken : α) (hs d : String)
    (hh : job.headers = some hs) (hd : env.decrypt hs = Except.ok d) :
    ∃ call : GenerateCsvArgs α,
      (executeJob env jobId job cancellationToken).csvCalls = [call] ∧
      (executeJob env jobId job cancellationToken).fakeRequests =
        [{ headers := d, basePath := basePathOf job env, path := "/" }] ∧
      call.callEndpointScope =
        { headers := d, basePath := basePathOf job env, path := "/" } ∧
      call.searchRequest = job.searchRequest ∧
      call.fields = job.fields ∧
      call.metaFields = job.metaFields ∧
      call.conflictedTypesFields = job.conflictedTypesFields ∧
      call.formatsMap = env.formatsMapOf job.indexPatternSavedObject env.fieldFormats ∧
      call.settings.separator = env.uiGet "csv:separator" ∧
      call.settings.quoteValues = env.uiGet "csv:quoteValues" ∧
      call.settings.timezone = env.uiGet "dateFormat:tz" ∧
      (executeJob env jobId job cancellationToken).result = Except.ok
        { content_type := "text/csv"
          content := (if env.useByteOrderMarkEncoding then CSV_BOM_CHARS else "")
            ++ (env.generateCsv call).content
          max_size_reached := (env.generateCsv call).maxSizeReached
          size := (env.generateCsv call).size
          csv_contains_formulas := (env.generateCsv call).csvContainsFormulas } := by
  refine ⟨{ searchRequest := job.searchRequest
            fields := job.fields
            metaFields := job.metaFields
            conflictedTypesFields := job.conflictedTypesFields
            callEndpointScope :=
              { headers := d, basePath := basePathOf job env, path := "/" }
            cancellationToken := cancellationToken
            formatsMap := env.formatsMapOf job.indexPatternSavedObject env.fieldFormats
            settings :=
              { separator := env.uiGet "csv:separator"
                quoteValues := env.uiGet "csv:quoteValues"
                timezone := env.uiGet "dateFormat:tz"
                checkForFormulas := env.checkForFormulas
                maxSizeBytes := env.maxSizeBytes
                scroll := env.scroll } },
          ?_, ?_, rfl, rfl, rfl, rfl, rfl, rfl, rfl, rfl, rfl, ?_⟩ <;>
    simp [executeJob, decryptHeaders, hh, hd, getUiSettings]

/-- Witness for C2 at the concrete environment and job. -/
theorem executeJob_success_witness :
    wJobGood.headers = some "enc" ∧
    wEnv.decrypt "enc" = Except.ok "authorization:basic" ∧
    ∃ call : GenerateCsvArgs Unit,
      (executeJob wEnv "job-2" wJobGood ()).csvCalls = [call] ∧
      (executeJob wEnv "job-2" wJobGood ()).fakeRequests =
        [{ headers := "authorization:basic",
           basePath := basePathOf wJobGood wEnv, path := "/" }] ∧
      call.callEndpointScope =
        { headers := "authorization:basic",
          basePath := basePathOf wJobGood wEnv, path := "/" } ∧
      call.searchRequest = wJobGood.searchRequest ∧
      call.fields = wJobGood.fields ∧
      call.metaFields = wJobGood.metaFields ∧
      call.conflictedTypesFields = wJobGood.conflictedTypesFields ∧
      call.formatsMap = wEnv.formatsMapOf wJobGood.indexPatternSavedObject wEnv.fieldFormats ∧
      call.settings.separator = wEnv.uiGet "csv:separator" ∧
      call.settings.quoteValues = wEnv.uiGet "csv:quoteValues" ∧
      call.settings.timezone = wEnv.uiGet "dateFormat:tz" ∧
      (executeJob wEnv "job-2" wJobGood ()).result = Except.ok
        { content_type := "text/csv"
          content := (if wEnv.useByteOrderMarkEncoding then CSV_BOM_CHARS else "")
            ++ (wEnv.generateCsv call).content
          max_size_reached := (wEnv.generateCsv call).maxSizeReached
          size := (wEnv.generateCsv call).size
          csv_contains_formulas := (wEnv.generateCsv call).csvContainsFormulas } :=
  ⟨rfl, rfl, executeJob_success wEnv "job-2" wJobGood () "enc" "authorization:basic" rfl rfl⟩

/-- C3: `executeJob` consumes the job payload without owning it — on every
path, success or thrown error, the payload after the run is the payload that
came in, every field unchanged. -/
theorem executeJob_preserves_job {α : Type} (env : ReportingEnv α)
    (jobId : String) (job : JobDocPayloadDiscoverCsv) (cancellationToken : α) :
    (executeJob env jobId job cancellationToken).jobAfter = job := by
  cases hr : decryptHeaders env job.headers with
  | mk fst snd => cases fst <;> simp [executeJob, hr]

/-- C5: every successful `executeJob` run resolves with content type
`text/csv`. -/
theorem executeJob_content_type_csv {α : Type} (env : ReportingEnv α)
    (jobId : String) (job : JobDocPayloadDiscoverCsv) (cancellationToken : α)
    (r : JobResult)
    (h : (executeJob env jobId job cancellationToken).result = Except.ok r) :
    r.content_type = "text/csv" := by
  cases hr : decryptHeaders env job.headers with
  | mk fst snd =>
    cases fst with
    | error e => simp [executeJob, hr] at h
    | ok d =>
      simp [executeJob, hr] at h
      simp [← h]

/-- Witness for C5 at the concrete environment and job. -/
theorem executeJob_content_type_csv_witness :
    (executeJob wEnv "job-2" wJobGood ()).result = Except.ok
      { content_type := "text/csv", content := CSV_BOM_CHARS ++ "sr",
        max_size_reached := false, size := 3, csv_contains_formulas := false } ∧
    JobResult.content_type
      { content_type := "text/csv", content := CSV_BOM_CHARS ++ "sr",
        max_size_reached := false, size := 3, csv_contains_formulas := false }
      = "text/csv" :=
  ⟨rfl, executeJob_content_type_csv wEnv "job-2" wJobGood () _ rfl⟩

/-- C6: `executeJob` implements no cancellation handling of its own — every
`generateCsv` call it makes carries the incoming cancellation token
unchanged (and the token type is opaque to `executeJob`, which is
polymorphic in it). -/
theorem executeJob_cancellation_passthrough {α : Type} (env : ReportingEnv α)
    (jobId : String) (job : JobDocPayloadDiscoverCsv) (cancellationToken : α) :
    ((executeJob env jobId job cancellationToken).csvCalls).map
        (fun c => c.cancellationToken) =
      List.replicate
        ((executeJob env jobId job cancellationToken).csvCalls).length
        cancellationToken := by
  cases hr : decryptHeaders env job.headers with
  | mk fst snd => cases fst <;> simp [executeJob, hr]

end Reporting
